import Mathlib

/-!
Formal model of two GraphQL resolvers of the talawa-api repository:
the `upVoters` connection resolver on `Comment` (keyset pagination over
comment votes) and the `updateFund` mutation resolver.  Pure functions
are translated directly from the TypeScript source; database queries are
modelled as list operations over explicit table states; the external
validation/ORM layers that live outside the shown source are modelled
from the specification and marked as such in doc comments.
-/

deriving instance DecidableEq for Except

namespace Talawa

/-- One entry of the `issues` list of a structured resolver error:
an argument path and an optional human-readable message. -/
structure Issue where
  argumentPath : List String
  message : Option String := none
deriving Repr, DecidableEq

/-- The machine-readable error codes raised by the two resolvers. -/
inductive ErrorCode where
  | unauthenticated
  | invalid_arguments
  | arguments_associated_resources_not_found
  | forbidden_action_on_arguments_associated_resources
  | unauthorized_action_on_arguments_associated_resources
  | unexpected
deriving Repr, DecidableEq

/-- A structured resolver error (`TalawaGraphQLError`): code, issues, message. -/
structure TalawaError where
  code : ErrorCode
  issues : List Issue := []
  message : String
deriving Repr, DecidableEq

/-! ## Comment votes data model (`commentVotesTable`) -/

/-- The vote direction column of the comment votes table. -/
inductive VoteType where
  | up_vote
  | down_vote
deriving Repr, DecidableEq

instance : BEq VoteType := ⟨fun a b => decide (a = b)⟩

/-- A row of the comment votes table, together with its joined `creator`
entity (`with: { creator: true }` in `findMany`).  Timestamps and user
identifiers are abstracted as naturals carrying the column order; the
`creatorId` column is nullable; `creator` is `none` when the foreign
reference is null or dangling. -/
structure VoteRow where
  commentId : Nat
  creatorId : Option Nat
  type : VoteType
  createdAt : Nat
  creator : Option Nat
deriving Repr, DecidableEq

/-- The decoded pagination cursor: the composite sort key
(`createdAt`, `creatorId`) of a previously returned vote row. -/
structure Cursor where
  createdAt : Nat
  creatorId : Nat
deriving Repr, DecidableEq

/-- The result of `upVotersArgumentsSchema` parsing: an optional decoded
cursor, the traversal direction flag, and the page size limit. -/
structure ParsedArgs where
  cursor : Option Cursor
  isInversed : Bool
  limit : Nat
deriving Repr, DecidableEq

/-! ## SQL comparison operators on nullable columns

`eq`, `gt`, `lt` on a nullable column are not true when the column is
null.  `ne(column, null)` is modelled, following the specification's
reading of the no-cursor base filter, as "the column is not null". -/

/-- `eq(col, v)` on the nullable `creatorId` column. -/
def optEqNat (x : Option Nat) (y : Nat) : Bool :=
  match x with
  | none => false
  | some v => v == y

/-- `gt(col, v)` on the nullable `creatorId` column. -/
def optGtNat (x : Option Nat) (y : Nat) : Bool :=
  match x with
  | none => false
  | some v => y < v

/-- `lt(col, v)` on the nullable `creatorId` column. -/
def optLtNat (x : Option Nat) (y : Nat) : Bool :=
  match x with
  | none => false
  | some v => v < y

/-! ## The `where` construction of the `upVoters` resolver -/

/-- The `exists(select().from(commentVotesTable).where(...))` subquery of
the cursor branches: some row of the table matches the cursor's
`createdAt` and `creatorId` together with the parent comment and the
`up_vote` type. -/
def cursorRowExists (table : List VoteRow) (c : Cursor) (parentId : Nat) : Bool :=
  table.any fun r =>
    r.createdAt == c.createdAt && optEqNat r.creatorId c.creatorId &&
      r.commentId == parentId && r.type == VoteType.up_vote

/-- The `where` filter built by the resolver, translated branch by branch
from the source: inversed traversal uses `gt` comparisons, forward uses
`lt`; with no cursor the base filter also requires `creatorId` not null. -/
def upVotersWhere (table : List VoteRow) (parentId : Nat)
    (cursor : Option Cursor) (isInversed : Bool) : VoteRow → Bool :=
  if isInversed then
    match cursor with
    | some c => fun r =>
        cursorRowExists table c parentId &&
        r.commentId == parentId &&
        r.type == VoteType.up_vote &&
        ((r.createdAt == c.createdAt && optGtNat r.creatorId c.creatorId) ||
          c.createdAt < r.createdAt)
    | none => fun r =>
        r.creatorId.isSome &&
        r.commentId == parentId &&
        r.type == VoteType.up_vote
  else
    match cursor with
    | some c => fun r =>
        cursorRowExists table c parentId &&
        r.commentId == parentId &&
        r.type == VoteType.up_vote &&
        ((r.createdAt == c.createdAt && optLtNat r.creatorId c.creatorId) ||
          r.createdAt < c.createdAt)
    | none => fun r =>
        r.creatorId.isSome &&
        r.commentId == parentId &&
        r.type == VoteType.up_vote

/-! ## The `orderBy` construction -/

/-- Ascending order on the nullable `creatorId` column, nulls last
(the SQL default for ascending order). -/
def ascCreatorLe (x y : Option Nat) : Bool :=
  match x, y with
  | _, none => true
  | none, some _ => false
  | some a, some b => a ≤ b

/-- Ascending lexicographic order on (`createdAt`, `creatorId`): the order
requested by `asc(createdAt), asc(creatorId)`. -/
def voteAscLe (a b : VoteRow) : Bool :=
  a.createdAt < b.createdAt ||
    (a.createdAt == b.createdAt && ascCreatorLe a.creatorId b.creatorId)

/-- The `orderBy` comparator chosen by the resolver: ascending
(`createdAt`, `creatorId`) for inversed traversal, descending (the
reverse order) for forward traversal. -/
def upVotersLe (isInversed : Bool) (a b : VoteRow) : Bool :=
  if isInversed then voteAscLe a b else voteAscLe b a

/-! ## The fetch (`findMany`) -/

/-- `findMany {limit, orderBy, where}`: the rows of the table satisfying
the filter, sorted by the comparator (a stable sort, modelling `ORDER
BY`), truncated to `limit` rows. -/
def findMany (table : List VoteRow) (whereP : VoteRow → Bool)
    (le : VoteRow → VoteRow → Bool) (limit : Nat) : List VoteRow :=
  (List.insertionSort (fun a b => le a b = true) (table.filter whereP)).take limit

/-! ## Connection production -/

/-- One edge of the connection: the vote's composite sort key (standing
for its re-encoded cursor, whose byte-level encoding is modelled
separately below) and the voter entity as node. -/
structure Edge where
  cursor : Nat × Option Nat
  node : Nat
deriving Repr, DecidableEq

/-- The connection envelope: edges plus page-info flags. -/
structure Connection where
  edges : List Edge
  hasNextPage : Bool
  hasPreviousPage : Bool
deriving Repr, DecidableEq

/-- Modelled from the spec: `transformToDefaultGraphQLConnection` lives in
`src/utilities/defaultGraphQLConnection` outside the shown source.  Each
edge carries the re-encoded (`createdAt`, `creatorId`) pair of its vote
as cursor and the voter entity as node; page-info flags are derived from
whether `limit` rows were returned and the traversal direction. -/
def transformToDefaultGraphQLConnection (args : ParsedArgs)
    (rawNodes : List VoteRow) : Connection :=
  let edges := rawNodes.map fun v =>
    { cursor := (v.createdAt, v.creatorId), node := v.creator.getD 0 : Edge }
  if args.isInversed then
    { edges := edges
      hasNextPage := args.cursor.isSome
      hasPreviousPage := rawNodes.length == args.limit }
  else
    { edges := edges
      hasNextPage := rawNodes.length == args.limit
      hasPreviousPage := args.cursor.isSome }

/-! ## The `upVoters` resolver -/

/-- The `invalid_arguments` error thrown when `safeParse` fails, with the
schema issues mapped to argument-path issues. -/
def invalidArgumentsError (issues : List Issue) : TalawaError :=
  { code := ErrorCode.invalid_arguments
    issues := issues
    message := "Invalid arguments provided." }

/-- The `arguments_associated_resources_not_found` error thrown when a
cursor was supplied but the fetch returned no rows. -/
def upVotersNotFoundError (isInversed : Bool) : TalawaError :=
  { code := ErrorCode.arguments_associated_resources_not_found
    issues := [{ argumentPath := [if isInversed then "before" else "after"] }]
    message := "No associated resources found for the provided arguments." }

/-- The `upVoters` resolve function, translated from the source.  Its
inputs are the parent comment id, the outcome of `safeParse` on the
connection arguments (an issue list on failure, parsed arguments on
success), and the state of the comment votes table. -/
def upVotersResolve (parentId : Nat)
    (parseResult : Except (List Issue) ParsedArgs)
    (table : List VoteRow) : Except TalawaError Connection :=
  match parseResult with
  | Except.error issues => Except.error (invalidArgumentsError issues)
  | Except.ok parsedArgs =>
    let commentVotes :=
      findMany table
        (upVotersWhere table parentId parsedArgs.cursor parsedArgs.isInversed)
        (upVotersLe parsedArgs.isInversed) parsedArgs.limit
    if parsedArgs.cursor.isSome && commentVotes.isEmpty then
      Except.error (upVotersNotFoundError parsedArgs.isInversed)
    else
      Except.ok (transformToDefaultGraphQLConnection parsedArgs
        (commentVotes.filter fun v => v.creator.isSome))

/-! ## Fund / user / membership data model (`updateFund`) -/

/-- The global role column of the users table. -/
inductive UserRole where
  | administrator
  | regular
deriving Repr, DecidableEq

instance : BEq UserRole := ⟨fun a b => decide (a = b)⟩

/-- A row of the users table (only the columns the resolver selects). -/
structure UserRow where
  id : Nat
  role : UserRole
deriving Repr, DecidableEq

/-- A row of the funds table. -/
structure FundRow where
  id : Nat
  name : String
  isTaxDeductible : Bool
  organizationId : Nat
  updaterId : Option Nat
deriving Repr, DecidableEq

/-- A row of the organization memberships table (only the columns the
resolver's relational lookup touches). -/
structure MembershipRow where
  memberId : Nat
  organizationId : Nat
  role : UserRole
deriving Repr, DecidableEq

/-- The parsed `updateFund` input: target fund id and the optional new
values; an absent optional field is `undefined` in the source. -/
structure UpdateFundInput where
  id : Nat
  name : Option String
  isTaxDeductible : Option Bool
deriving Repr, DecidableEq

/-- The database state the `updateFund` resolver reads and writes. -/
structure Database where
  users : List UserRow
  funds : List FundRow
  memberships : List MembershipRow
deriving Repr, DecidableEq

/-- The `unauthenticated` error. -/
def unauthenticatedError : TalawaError :=
  { code := ErrorCode.unauthenticated
    message := "Only authenticated users can perform this action." }

/-- The `arguments_associated_resources_not_found` error for a missing
fund, pointing at the fund-id argument path. -/
def fundNotFoundError : TalawaError :=
  { code := ErrorCode.arguments_associated_resources_not_found
    issues := [{ argumentPath := ["input", "id"] }]
    message := "No associated resources found for the provided arguments." }

/-- The `forbidden_action_on_arguments_associated_resources` error raised
by the name-uniqueness check, pointing at the name argument path. -/
def fundNameForbiddenError : TalawaError :=
  { code := ErrorCode.forbidden_action_on_arguments_associated_resources
    issues := [{ argumentPath := ["input", "name"]
                 message := some "This name is not available." }]
    message := "This action is forbidden on the resources associated to the provided arguments." }

/-- The `unauthorized_action_on_arguments_associated_resources` error of
the authorization check, pointing at the fund-id argument path. -/
def fundUnauthorizedError : TalawaError :=
  { code := ErrorCode.unauthorized_action_on_arguments_associated_resources
    issues := [{ argumentPath := ["input", "id"] }]
    message := "You are not authorized to perform this action on the resources associated to the provided arguments." }

/-- The `unexpected` error raised when the update affected no row. -/
def unexpectedError : TalawaError :=
  { code := ErrorCode.unexpected
    message := "Something went wrong. Please try again." }

/-- The `.set({...})` payload applied to a fund row: fields whose input
value is `undefined` are skipped by the ORM, so they keep their previous
value; `updaterId` is always set to the caller. -/
def applyFundUpdate (input : UpdateFundInput) (currentUserId : Nat)
    (f : FundRow) : FundRow :=
  { f with
    isTaxDeductible := input.isTaxDeductible.getD f.isTaxDeductible
    name := input.name.getD f.name
    updaterId := some currentUserId }

/-- The name-uniqueness pre-check: some fund of the target fund's
organization (the target itself not excluded) already bears the input
name; `false` when no name was supplied. -/
def fundNameTaken (input : UpdateFundInput) (db : Database)
    (existingFund : FundRow) : Bool :=
  match input.name with
  | none => false
  | some name =>
    db.funds.any fun f =>
      f.name == name && f.organizationId == existingFund.organizationId

/-- The first organization membership of the caller within the fund's
owning organization
(`organizationMembershipsWhereOrganization` filtered to the caller, `[0]`). -/
def callerMembership (db : Database) (organizationId currentUserId : Nat) :
    Option MembershipRow :=
  (db.memberships.filter fun m =>
    m.organizationId == organizationId && m.memberId == currentUserId).head?

/-- The `updateFund` resolve function, translated step by step from the
source: authentication check, concurrent lookups of the caller's user row
and the target fund (with the caller's membership in its organization),
name-uniqueness check, authorization check, then the keyed update.
Returns the resolver outcome together with the funds table after the
call. -/
def updateFundResolve (authenticatedUserId : Option Nat)
    (input : UpdateFundInput) (db : Database) :
    Except TalawaError FundRow × List FundRow :=
  match authenticatedUserId with
  | none => (Except.error unauthenticatedError, db.funds)
  | some currentUserId =>
    match db.users.find? (fun u => u.id == currentUserId) with
    | none => (Except.error unauthenticatedError, db.funds)
    | some currentUser =>
      match db.funds.find? (fun f => f.id == input.id) with
      | none => (Except.error fundNotFoundError, db.funds)
      | some existingFund =>
        if fundNameTaken input db existingFund then
          (Except.error fundNameForbiddenError, db.funds)
        else
          let membership :=
            callerMembership db existingFund.organizationId currentUserId
          if currentUser.role != UserRole.administrator &&
              (match membership with
               | none => true
               | some m => m.role != UserRole.administrator) then
            (Except.error fundUnauthorizedError, db.funds)
          else
            let newFunds := db.funds.map fun f =>
              if f.id == input.id then applyFundUpdate input currentUserId f
              else f
            let returning :=
              ((db.funds.filter fun f => f.id == input.id).map
                (applyFundUpdate input currentUserId))
            match returning.head? with
            | none => (Except.error unexpectedError, newFunds)
            | some updatedFund => (Except.ok updatedFund, newFunds)

/-! ## The cursor codec

`createCursor` serializes `{createdAt, creatorId}` with `JSON.stringify`
and base64url-encodes the UTF-8 bytes; the argument schema inverts the
transform and validates the shape.  Byte strings are modelled as lists of
naturals below 256. -/

/-- The base64url alphabet: the byte encoding a 6-bit value. -/
def b64Char (v : Nat) : Nat :=
  if v < 26 then 65 + v
  else if v < 52 then 97 + (v - 26)
  else if v < 62 then 48 + (v - 52)
  else if v = 62 then 45
  else 95

/-- The 6-bit value of a base64url alphabet byte, `none` for a byte
outside the alphabet. -/
def b64Val (c : Nat) : Option Nat :=
  if 65 ≤ c ∧ c ≤ 90 then some (c - 65)
  else if 97 ≤ c ∧ c ≤ 122 then some (26 + (c - 97))
  else if 48 ≤ c ∧ c ≤ 57 then some (52 + (c - 48))
  else if c = 45 then some 62
  else if c = 95 then some 63
  else none

/-- Base64url encoding of a byte string, unpadded
(`Buffer.prototype.toString("base64url")`). -/
def b64Encode : List Nat → List Nat
  | [] => []
  | [b1] => [b64Char (b1 / 4), b64Char (b1 % 4 * 16)]
  | [b1, b2] =>
      [b64Char (b1 / 4), b64Char (b1 % 4 * 16 + b2 / 16), b64Char (b2 % 16 * 4)]
  | b1 :: b2 :: b3 :: rest =>
      b64Char (b1 / 4) :: b64Char (b1 % 4 * 16 + b2 / 16) ::
        b64Char (b2 % 16 * 4 + b3 / 64) :: b64Char (b3 % 64) :: b64Encode rest

/-- Base64url decoding of an unpadded string back to bytes
(`Buffer.from(s, "base64url")`); fails on bytes outside the alphabet or
an impossible length. -/
def b64Decode : List Nat → Option (List Nat)
  | [] => some []
  | [_] => none
  | [c1, c2] => do
      let v1 ← b64Val c1
      let v2 ← b64Val c2
      some [v1 * 4 + v2 / 16]
  | [c1, c2, c3] => do
      let v1 ← b64Val c1
      let v2 ← b64Val c2
      let v3 ← b64Val c3
      some [v1 * 4 + v2 / 16, v2 % 16 * 16 + v3 / 4]
  | c1 :: c2 :: c3 :: c4 :: rest => do
      let v1 ← b64Val c1
      let v2 ← b64Val c2
      let v3 ← b64Val c3
      let v4 ← b64Val c4
      let tail ← b64Decode rest
      some ((v1 * 4 + v2 / 16) :: (v2 % 16 * 16 + v3 / 4) :: (v3 % 4 * 64 + v4) :: tail)

/-- The UTF-8 bytes of `{"createdAt":"` — the opening of the serialized
cursor object. -/
def jsonCursorOpen : List Nat :=
  [123, 34, 99, 114, 101, 97, 116, 101, 100, 65, 116, 34, 58, 34]

/-- The UTF-8 bytes of `","creatorId":"` — between the two field values. -/
def jsonCursorMid : List Nat :=
  [34, 44, 34, 99, 114, 101, 97, 116, 111, 114, 73, 100, 34, 58, 34]

/-- The UTF-8 bytes of the closing quote and brace of the serialized
cursor object. -/
def jsonCursorClose : List Nat := [34, 125]

/-- `JSON.stringify({createdAt: ..., creatorId: ...})` on field values
rendered as JSON strings (the timestamp's ISO form and the identifier),
as byte strings. -/
def jsonStringifyCursor (createdAt creatorId : List Nat) : List Nat :=
  jsonCursorOpen ++ createdAt ++ jsonCursorMid ++ creatorId ++ jsonCursorClose

/-- Consume an expected literal byte prefix, returning the remainder. -/
def dropExact : List Nat → List Nat → Option (List Nat)
  | [], bs => some bs
  | _ :: _, [] => none
  | p :: ps, b :: bs => if b == p then dropExact ps bs else none

/-- Scan the content of a JSON string up to (excluding) the closing
quote; fails on a backslash (escapes do not occur in valid cursor field
values) or a missing quote. -/
def scanJsonString : List Nat → Option (List Nat × List Nat)
  | [] => none
  | b :: bs =>
    if b == 34 then some ([], b :: bs)
    else if b == 92 then none
    else do
      let (content, rest) ← scanJsonString bs
      some (b :: content, rest)

/-- Modelled from the spec: `JSON.parse` composed with the cursor schema
(`cursorSchema.parse`).  The external parser and the schema's leaf
validators live outside the shown source; the spec fixes the wire format
to a UTF-8 JSON object with the two required fields `createdAt` and
`creatorId`, so this model accepts exactly the canonical serialization of
such an object and fails on everything else (a failure of any stage of
the real pipeline is likewise a failure here). -/
def jsonParseCursor (bs : List Nat) : Option (List Nat × List Nat) := do
  let r1 ← dropExact jsonCursorOpen bs
  let (createdAt, r2) ← scanJsonString r1
  let r3 ← dropExact jsonCursorMid r2
  let (creatorId, r4) ← scanJsonString r3
  let r5 ← dropExact jsonCursorClose r4
  if r5.isEmpty then some (createdAt, creatorId) else none

/-- `createCursor`: serialize the (`createdAt`, `creatorId`) pair and
base64url-encode it. -/
def createCursor (createdAt creatorId : List Nat) : List Nat :=
  b64Encode (jsonStringifyCursor createdAt creatorId)

/-- The full cursor decode pipeline of `upVotersArgumentsSchema`:
base64url-decode, then JSON-parse and schema-validate. -/
def decodeCursor (s : List Nat) : Option (List Nat × List Nat) :=
  (b64Decode s).bind jsonParseCursor

/-- A valid cursor field value: a byte string free of the JSON string
delimiters (quote, backslash) and of bytes outside the byte range —
satisfied by every ISO-8601 timestamp and every UUID. -/
def ValidField (bs : List Nat) : Prop :=
  ∀ b ∈ bs, b < 256 ∧ b ≠ 34 ∧ b ≠ 92

instance (bs : List Nat) : Decidable (ValidField bs) := by
  unfold ValidField; infer_instance

/-- The final transform stage of `upVotersArgumentsSchema` on the
normalized `{cursor, isInversed, limit}` shape: attempt the cursor
decode, recording a field-level issue at `before`/`after` (message
"Not a valid cursor.") when it fails. -/
def upVotersArgumentsTransform (rawCursor : Option (List Nat))
    (isInversed : Bool) (limit : Nat) :
    Except (List Issue) (Option (List Nat × List Nat) × Bool × Nat) :=
  match rawCursor with
  | none => Except.ok (none, isInversed, limit)
  | some s =>
    match decodeCursor s with
    | some c => Except.ok (some c, isInversed, limit)
    | none =>
      Except.error
        [{ argumentPath := [if isInversed then "before" else "after"]
           message := some "Not a valid cursor." }]

/-- The named fetch of the resolver (`commentVotes`), for reuse in
statements. -/
def upVotersFetch (parentId : Nat) (a : ParsedArgs) (table : List VoteRow) :
    List VoteRow :=
  findMany table (upVotersWhere table parentId a.cursor a.isInversed)
    (upVotersLe a.isInversed) a.limit

/-! ## Specification-side predicates (for the refinement claims) -/

/-- The base filter of the spec: comment = parent, vote type = up. -/
def baseFilterSpec (parentId : Nat) (r : VoteRow) : Bool :=
  r.commentId == parentId && r.type == VoteType.up_vote

/-- The strict keyset range predicate of the spec:
(createdAt equal and creatorId strictly beyond the cursor's) or createdAt
strictly beyond the cursor's, with `>` for inversed traversal and `<` for
forward traversal. -/
def keysetRangeSpec (isInversed : Bool) (c : Cursor) (r : VoteRow) : Bool :=
  if isInversed then
    (r.createdAt == c.createdAt && optGtNat r.creatorId c.creatorId) ||
      c.createdAt < r.createdAt
  else
    (r.createdAt == c.createdAt && optLtNat r.creatorId c.creatorId) ||
      r.createdAt < c.createdAt

/-- The authorization predicate of the spec: the caller is a global
administrator, or the caller's membership role in the fund's organization
is administrator. -/
def isAdminOrOrgAdmin (user : UserRow) (membership : Option MembershipRow) : Bool :=
  user.role == UserRole.administrator ||
    (match membership with
     | none => false
     | some m => m.role == UserRole.administrator)

/-! ## Helper lemmas -/

theorem ascCreatorLe_trans (a b c : Option Nat) (h1 : ascCreatorLe a b = true)
    (h2 : ascCreatorLe b c = true) : ascCreatorLe a c = true := by
  cases a <;> cases b <;> cases c <;> simp_all [ascCreatorLe] <;> omega

theorem ascCreatorLe_total (a b : Option Nat) :
    (ascCreatorLe a b || ascCreatorLe b a) = true := by
  cases a <;> cases b <;> simp [ascCreatorLe] <;> omega

theorem voteAscLe_trans (a b c : VoteRow) (h1 : voteAscLe a b = true)
    (h2 : voteAscLe b c = true) : voteAscLe a c = true := by
  simp only [voteAscLe, Bool.or_eq_true, Bool.and_eq_true, decide_eq_true_eq,
    beq_iff_eq] at h1 h2 ⊢
  rcases h1 with h1 | ⟨e1, l1⟩ <;> rcases h2 with h2 | ⟨e2, l2⟩
  · exact Or.inl (by omega)
  · exact Or.inl (by omega)
  · exact Or.inl (by omega)
  · exact Or.inr ⟨by omega, ascCreatorLe_trans _ _ _ l1 l2⟩

theorem voteAscLe_total (a b : VoteRow) :
    (voteAscLe a b || voteAscLe b a) = true := by
  simp only [voteAscLe, Bool.or_eq_true, Bool.and_eq_true, decide_eq_true_eq,
    beq_iff_eq]
  rcases Nat.lt_trichotomy a.createdAt b.createdAt with h | h | h
  · exact Or.inl (Or.inl h)
  · have := ascCreatorLe_total a.creatorId b.creatorId
    rcases Bool.or_eq_true_iff.mp this with h' | h'
    · exact Or.inl (Or.inr ⟨h, h'⟩)
    · exact Or.inr (Or.inr ⟨h.symm, h'⟩)
  · exact Or.inr (Or.inl h)

theorem upVotersLe_trans (isInversed : Bool) (a b c : VoteRow)
    (h1 : upVotersLe isInversed a b = true) (h2 : upVotersLe isInversed b c = true) :
    upVotersLe isInversed a c = true := by
  cases isInversed <;> simp only [upVotersLe, if_true, if_false, Bool.false_eq_true] at * <;>
    [exact voteAscLe_trans _ _ _ h2 h1; exact voteAscLe_trans _ _ _ h1 h2]

theorem upVotersLe_total (isInversed : Bool) (a b : VoteRow) :
    (upVotersLe isInversed a b || upVotersLe isInversed b a) = true := by
  cases isInversed <;> simp only [upVotersLe, if_true, if_false] <;>
    [exact Bool.or_comm _ _ ▸ voteAscLe_total b a; exact voteAscLe_total a b]

theorem findMany_pairwise (table : List VoteRow) (whereP : VoteRow → Bool)
    (isInversed : Bool) (limit : Nat) :
    List.Pairwise (fun a b => upVotersLe isInversed a b = true)
      (findMany table whereP (upVotersLe isInversed) limit) := by
  haveI : IsTotal VoteRow (fun a b => upVotersLe isInversed a b = true) :=
    ⟨fun a b => Bool.or_eq_true_iff.mp (upVotersLe_total isInversed a b)⟩
  haveI : IsTrans VoteRow (fun a b => upVotersLe isInversed a b = true) :=
    ⟨fun a b c => upVotersLe_trans isInversed a b c⟩
  apply List.Pairwise.sublist (List.take_sublist _ _)
  exact List.sorted_insertionSort _ _

/-! ## C2: the cursor-branch row filter -/

/-- C2: for every upVoters call with a decoded cursor, the constructed row
filter equals the conjunction of the base filter (comment = parent, type
= up_vote), the defensive existence re-check of the cursor row, and the
strict keyset range predicate — with `>` comparisons when inversed and
`<` when forward. -/
theorem upVoters_cursor_filter_eq (table : List VoteRow) (parentId : Nat)
    (c : Cursor) (isInversed : Bool) (r : VoteRow) :
    upVotersWhere table parentId (some c) isInversed r =
      (baseFilterSpec parentId r && cursorRowExists table c parentId &&
        keysetRangeSpec isInversed c r) := by
  apply Bool.eq_iff_iff.mpr
  cases isInversed <;>
    simp only [upVotersWhere, baseFilterSpec, keysetRangeSpec, Bool.if_false_left,
      Bool.if_true_left, if_true, if_false, Bool.and_eq_true, Bool.or_eq_true,
      Bool.false_eq_true, Bool.true_eq_false, ite_true, ite_false] <;>
    tauto

/-- C2 witness: the filter identity at a concrete table, cursor and row. -/
theorem upVoters_cursor_filter_eq_witness :
    upVotersWhere [⟨1, some 5, VoteType.up_vote, 10, some 5⟩] 1
        (some ⟨10, 5⟩) false ⟨1, some 7, VoteType.up_vote, 8, some 7⟩ =
      (baseFilterSpec 1 ⟨1, some 7, VoteType.up_vote, 8, some 7⟩ &&
        cursorRowExists [⟨1, some 5, VoteType.up_vote, 10, some 5⟩] ⟨10, 5⟩ 1 &&
        keysetRangeSpec false ⟨10, 5⟩ ⟨1, some 7, VoteType.up_vote, 8, some 7⟩) :=
  upVoters_cursor_filter_eq [⟨1, some 5, VoteType.up_vote, 10, some 5⟩] 1
    ⟨10, 5⟩ false ⟨1, some 7, VoteType.up_vote, 8, some 7⟩

/-! ## C7: the fetch order -/

/-- C7: the fetch order is descending on (createdAt, creatorId) for
forward traversal (each fetched row is greater or equal, in the ascending
lexicographic order, than every later one) and ascending for inverse
traversal; in particular this holds for a forward page without a cursor. -/
theorem upVoters_fetch_order (table : List VoteRow) (parentId : Nat)
    (cursor : Option Cursor) (limit : Nat) :
    List.Pairwise (fun a b => voteAscLe b a = true)
      (upVotersFetch parentId ⟨cursor, false, limit⟩ table) ∧
    List.Pairwise (fun a b => voteAscLe a b = true)
      (upVotersFetch parentId ⟨cursor, true, limit⟩ table) := by
  constructor
  · have h := findMany_pairwise table
      (upVotersWhere table parentId cursor false) false limit
    simpa [upVotersFetch, upVotersLe] using h
  · have h := findMany_pairwise table
      (upVotersWhere table parentId cursor true) true limit
    simpa [upVotersFetch, upVotersLe] using h

/-- C7 witness: the order facts at a concrete table without a cursor. -/
theorem upVoters_fetch_order_witness :
    List.Pairwise (fun a b => voteAscLe b a = true)
      (upVotersFetch 1 ⟨none, false, 3⟩
        [⟨1, some 7, VoteType.up_vote, 8, some 7⟩,
         ⟨1, some 5, VoteType.up_vote, 10, some 5⟩]) ∧
    List.Pairwise (fun a b => voteAscLe a b = true)
      (upVotersFetch 1 ⟨none, true, 3⟩
        [⟨1, some 7, VoteType.up_vote, 8, some 7⟩,
         ⟨1, some 5, VoteType.up_vote, 10, some 5⟩]) :=
  upVoters_fetch_order
    [⟨1, some 7, VoteType.up_vote, 8, some 7⟩,
     ⟨1, some 5, VoteType.up_vote, 10, some 5⟩] 1 none 3

/-- Unfolding of the resolver on successfully parsed arguments. -/
theorem upVotersResolve_ok (parentId : Nat) (a : ParsedArgs)
    (table : List VoteRow) :
    upVotersResolve parentId (Except.ok a) table =
      if a.cursor.isSome && (upVotersFetch parentId a table).isEmpty then
        Except.error (upVotersNotFoundError a.isInversed)
      else
        Except.ok (transformToDefaultGraphQLConnection a
          ((upVotersFetch parentId a table).filter fun v => v.creator.isSome)) :=
  rfl

/-! ## C4: cursor exhaustion versus empty no-cursor result -/

/-- C4: on parsed arguments, the resolver raises the
`arguments_associated_resources_not_found` error exactly when a cursor
was supplied and the fetch returned zero rows; with no cursor and an
empty fetch it returns a valid empty connection (no error, no edges). -/
theorem upVoters_notFound_iff_cursor_exhausted (parentId : Nat)
    (table : List VoteRow) (a : ParsedArgs) :
    (upVotersResolve parentId (Except.ok a) table =
        Except.error (upVotersNotFoundError a.isInversed) ↔
      a.cursor.isSome = true ∧ upVotersFetch parentId a table = []) ∧
    (a.cursor = none → upVotersFetch parentId a table = [] →
      upVotersResolve parentId (Except.ok a) table =
        Except.ok (transformToDefaultGraphQLConnection a []) ∧
      (transformToDefaultGraphQLConnection a []).edges = []) := by
  refine ⟨?_, ?_⟩
  · rw [upVotersResolve_ok]
    by_cases h : a.cursor.isSome && (upVotersFetch parentId a table).isEmpty
    · rcases Bool.and_eq_true_iff.mp h with ⟨h1, h2⟩
      rw [if_pos h]
      simp [h1, List.isEmpty_iff.mp h2]
    · rw [if_neg h]
      constructor
      · intro hcontra; exact absurd hcontra (by simp)
      · intro ⟨h1, h2⟩
        exact absurd (Bool.and_eq_true_iff.mpr ⟨h1, List.isEmpty_iff.mpr h2⟩) h
  · intro hc hf
    constructor
    · rw [upVotersResolve_ok, hf, if_neg (by simp [hc])]
      simp
    · cases hi : a.isInversed <;>
        simp [transformToDefaultGraphQLConnection, hi]

/-- C4 witness: a call with no cursor on an empty table returns a valid
empty connection. -/
theorem upVoters_notFound_iff_cursor_exhausted_witness :
    upVotersResolve 7 (Except.ok ⟨none, false, 2⟩) [] =
      Except.ok (transformToDefaultGraphQLConnection ⟨none, false, 2⟩ []) ∧
    (transformToDefaultGraphQLConnection ⟨none, false, 2⟩ []).edges = [] :=
  (upVoters_notFound_iff_cursor_exhausted 7 [] ⟨none, false, 2⟩).2 rfl rfl

/-! ## C9: dangling voters are silently dropped -/

/-- C9: whenever the resolver produces a connection (equivalently, the
cursor-exhaustion error is not triggered), every fetched vote whose
joined creator entity is null is excluded before the nodes are produced,
the connection's edges being exactly the creator-bearing fetched rows in
order, and no error is raised and no issue recorded. -/
theorem upVoters_dangling_creators_dropped (parentId : Nat)
    (table : List VoteRow) (a : ParsedArgs)
    (h : ¬(a.cursor.isSome = true ∧ upVotersFetch parentId a table = [])) :
    upVotersResolve parentId (Except.ok a) table =
      Except.ok (transformToDefaultGraphQLConnection a
        ((upVotersFetch parentId a table).filter fun v => v.creator.isSome)) ∧
    (transformToDefaultGraphQLConnection a
        ((upVotersFetch parentId a table).filter fun v => v.creator.isSome)).edges =
      ((upVotersFetch parentId a table).filter fun v => v.creator.isSome).map
        (fun v => { cursor := (v.createdAt, v.creatorId),
                    node := v.creator.getD 0 }) := by
  constructor
  · rw [upVotersResolve_ok, if_neg]
    intro hcond
    rcases Bool.and_eq_true_iff.mp hcond with ⟨h1, h2⟩
    exact h ⟨h1, List.isEmpty_iff.mp h2⟩
  · cases hi : a.isInversed <;>
      simp [transformToDefaultGraphQLConnection, hi]

/-- C9 witness: a page holding one dangling vote and one valid vote
produces exactly the valid voter as node, with no error. -/
theorem upVoters_dangling_creators_dropped_witness :
    upVotersResolve 1 (Except.ok ⟨none, false, 4⟩)
        [⟨1, some 5, VoteType.up_vote, 10, some 5⟩,
         ⟨1, none, VoteType.up_vote, 9, none⟩] =
      Except.ok (transformToDefaultGraphQLConnection ⟨none, false, 4⟩
        ((upVotersFetch 1 ⟨none, false, 4⟩
            [⟨1, some 5, VoteType.up_vote, 10, some 5⟩,
             ⟨1, none, VoteType.up_vote, 9, none⟩]).filter
          fun v => v.creator.isSome)) ∧
    (transformToDefaultGraphQLConnection ⟨none, false, 4⟩
        ((upVotersFetch 1 ⟨none, false, 4⟩
            [⟨1, some 5, VoteType.up_vote, 10, some 5⟩,
             ⟨1, none, VoteType.up_vote, 9, none⟩]).filter
          fun v => v.creator.isSome)).edges =
      ((upVotersFetch 1 ⟨none, false, 4⟩
          [⟨1, some 5, VoteType.up_vote, 10, some 5⟩,
           ⟨1, none, VoteType.up_vote, 9, none⟩]).filter
        fun v => v.creator.isSome).map
        (fun v => { cursor := (v.createdAt, v.creatorId),
                    node := v.creator.getD 0 }) :=
  upVoters_dangling_creators_dropped 1
    [⟨1, some 5, VoteType.up_vote, 10, some 5⟩,
     ⟨1, none, VoteType.up_vote, 9, none⟩] ⟨none, false, 4⟩
    (by decide)

/-! ## C10: the cursor filter omits the voter-not-null condition -/

/-- C10: the cursor-branch row filter accepts a row with a null
`creatorId` that satisfies the base, range, and existence conditions,
whereas the no-cursor filter rejects every such row; consequently (shown
on a concrete table) a cursor page may fetch a dangling row that counts
toward `limit` and is dropped only afterwards, so the page carries fewer
than `limit` nodes although `limit` matching non-dangling rows exist. -/
theorem upVoters_cursor_filter_omits_null_check (table : List VoteRow)
    (parentId : Nat) (c : Cursor) (isInversed : Bool) (r : VoteRow)
    (hnull : r.creatorId = none)
    (hbase : baseFilterSpec parentId r = true)
    (hrange : keysetRangeSpec isInversed c r = true)
    (hex : cursorRowExists table c parentId = true) :
    (upVotersWhere table parentId (some c) isInversed r = true ∧
      upVotersWhere table parentId none isInversed r = false) ∧
    (upVotersResolve 1
        (Except.ok ⟨some ⟨10, 5⟩, false, 1⟩)
        [⟨1, some 5, VoteType.up_vote, 10, some 5⟩,
         ⟨1, none, VoteType.up_vote, 9, none⟩,
         ⟨1, some 7, VoteType.up_vote, 8, some 7⟩] =
      Except.ok { edges := [], hasNextPage := false, hasPreviousPage := true } ∧
     (([⟨1, some 5, VoteType.up_vote, 10, some 5⟩,
        ⟨1, none, VoteType.up_vote, 9, none⟩,
        ⟨1, some 7, VoteType.up_vote, 8, some 7⟩] : List VoteRow).filter
        fun v => upVotersWhere
          [⟨1, some 5, VoteType.up_vote, 10, some 5⟩,
           ⟨1, none, VoteType.up_vote, 9, none⟩,
           ⟨1, some 7, VoteType.up_vote, 8, some 7⟩] 1 (some ⟨10, 5⟩) false v &&
          v.creator.isSome).length = 1) := by
  refine ⟨⟨?_, ?_⟩, by decide, by decide⟩
  · rw [upVoters_cursor_filter_eq]
    simp [hbase, hrange, hex]
  · cases isInversed <;> simp [upVotersWhere, hnull]

/-- C10 witness: the filter facts at a concrete null-creator row. -/
theorem upVoters_cursor_filter_omits_null_check_witness :
    (upVotersWhere [⟨1, some 5, VoteType.up_vote, 10, some 5⟩,
        ⟨1, none, VoteType.up_vote, 9, none⟩] 1 (some ⟨10, 5⟩) false
        ⟨1, none, VoteType.up_vote, 9, none⟩ = true ∧
      upVotersWhere [⟨1, some 5, VoteType.up_vote, 10, some 5⟩,
        ⟨1, none, VoteType.up_vote, 9, none⟩] 1 none false
        ⟨1, none, VoteType.up_vote, 9, none⟩ = false) ∧
    (upVotersResolve 1
        (Except.ok ⟨some ⟨10, 5⟩, false, 1⟩)
        [⟨1, some 5, VoteType.up_vote, 10, some 5⟩,
         ⟨1, none, VoteType.up_vote, 9, none⟩,
         ⟨1, some 7, VoteType.up_vote, 8, some 7⟩] =
      Except.ok { edges := [], hasNextPage := false, hasPreviousPage := true } ∧
     (([⟨1, some 5, VoteType.up_vote, 10, some 5⟩,
        ⟨1, none, VoteType.up_vote, 9, none⟩,
        ⟨1, some 7, VoteType.up_vote, 8, some 7⟩] : List VoteRow).filter
        fun v => upVotersWhere
          [⟨1, some 5, VoteType.up_vote, 10, some 5⟩,
           ⟨1, none, VoteType.up_vote, 9, none⟩,
           ⟨1, some 7, VoteType.up_vote, 8, some 7⟩] 1 (some ⟨10, 5⟩) false v &&
          v.creator.isSome).length = 1) :=
  upVoters_cursor_filter_omits_null_check
    [⟨1, some 5, VoteType.up_vote, 10, some 5⟩,
     ⟨1, none, VoteType.up_vote, 9, none⟩] 1 ⟨10, 5⟩ false
    ⟨1, none, VoteType.up_vote, 9, none⟩
    rfl (by decide) (by decide) (by decide)

/-! ## The `updateFund` theorems -/

theorem head?_filter_eq_find? {α : Type} (p : α → Bool) (l : List α) :
    (l.filter p).head? = l.find? p := by
  induction l with
  | nil => rfl
  | cons a l ih =>
    by_cases h : p a <;> simp [List.filter_cons, List.find?_cons, h, ih]

theorem authzCondition_eq (user : UserRow) (membership : Option MembershipRow) :
    (user.role != UserRole.administrator &&
      (match membership with
       | none => true
       | some m => m.role != UserRole.administrator)) =
      !isAdminOrOrgAdmin user membership := by
  cases membership with
  | none => simp [isAdminOrOrgAdmin, bne]
  | some m => simp [isAdminOrOrgAdmin, Bool.not_or, bne]

/-- Unfolding of the resolver once the caller's user row and the target
fund have been found: name-uniqueness check, then authorization, then the
keyed update. -/
theorem updateFundResolve_eq (uid : Nat) (input : UpdateFundInput)
    (db : Database) (user : UserRow) (fund : FundRow)
    (hu : db.users.find? (fun u => u.id == uid) = some user)
    (hf : db.funds.find? (fun f => f.id == input.id) = some fund) :
    updateFundResolve (some uid) input db =
      if fundNameTaken input db fund then
        (Except.error fundNameForbiddenError, db.funds)
      else if isAdminOrOrgAdmin user (callerMembership db fund.organizationId uid) then
        (Except.ok (applyFundUpdate input uid fund),
          db.funds.map fun f =>
            if f.id == input.id then applyFundUpdate input uid f else f)
      else (Except.error fundUnauthorizedError, db.funds) := by
  have hret : ((db.funds.filter fun f => f.id == input.id).map
      (applyFundUpdate input uid)).head? = some (applyFundUpdate input uid fund) := by
    rw [List.head?_map, head?_filter_eq_find?, hf]; rfl
  simp only [updateFundResolve, hu, hf, authzCondition_eq]
  cases hn : fundNameTaken input db fund with
  | true => simp
  | false =>
    cases hb : isAdminOrOrgAdmin user (callerMembership db fund.organizationId uid) with
    | true => simp [hret]
    | false => simp

/-! ## C1: renaming a fund to its own current name -/

/-- C1 counterexample: a global administrator updates fund 10 of
organization 5 setting `input.name` to the fund's own current name; the
claim asserts the uniqueness check passes and the update succeeds, but
the resolver raises the `forbidden_action_on_arguments_associated_resources`
error (the pre-check finds the fund itself), so the call does not
succeed. -/
theorem updateFund_self_rename_counterexample :
    (updateFundResolve (some 1) ⟨10, some "General", none⟩
        ⟨[⟨1, UserRole.administrator⟩],
         [⟨10, "General", false, 5, none⟩], []⟩).1 =
      Except.error fundNameForbiddenError := by
  decide

/-- C1 amended: for every updateFund call by an authenticated caller
whose user row exists, where the target fund exists and `input.name`
equals the fund's own current name, the uniqueness pre-check finds the
fund itself and the call fails with the forbidden error at the name
argument path ("This name is not available."), leaving the funds table
unchanged — regardless of the caller's authorization. -/
theorem updateFund_self_rename_forbidden (uid : Nat)
    (input : UpdateFundInput) (db : Database) (user : UserRow)
    (fund : FundRow) (name : String)
    (hu : db.users.find? (fun u => u.id == uid) = some user)
    (hf : db.funds.find? (fun f => f.id == input.id) = some fund)
    (hn : input.name = some name) (hself : fund.name = name) :
    updateFundResolve (some uid) input db =
      (Except.error fundNameForbiddenError, db.funds) := by
  rw [updateFundResolve_eq uid input db user fund hu hf, if_pos]
  have hmem : fund ∈ db.funds := List.mem_of_find?_eq_some hf
  simp only [fundNameTaken, hn]
  exact List.any_eq_true.mpr ⟨fund, hmem, by simp [hself]⟩

/-- C1 amended witness: the concrete self-rename scenario. -/
theorem updateFund_self_rename_forbidden_witness :
    updateFundResolve (some 1) ⟨10, some "General", none⟩
        ⟨[⟨1, UserRole.regular⟩], [⟨10, "General", false, 5, none⟩],
         [⟨1, 5, UserRole.administrator⟩]⟩ =
      (Except.error fundNameForbiddenError,
        [⟨10, "General", false, 5, none⟩]) :=
  updateFund_self_rename_forbidden 1 ⟨10, some "General", none⟩
    ⟨[⟨1, UserRole.regular⟩], [⟨10, "General", false, 5, none⟩],
     [⟨1, 5, UserRole.administrator⟩]⟩
    ⟨1, UserRole.regular⟩ ⟨10, "General", false, 5, none⟩ "General"
    (by decide) (by decide) rfl rfl

/-! ## C3: the authorization check -/

/-- C3: for every call that reaches the authorization step (caller
authenticated with an existing user row, fund found, name check passed),
the resolver raises the unauthorized error at the fund-id argument path
and leaves the funds unchanged exactly when the caller is neither a
global administrator nor an organization administrator of the fund's
organization; otherwise the update is applied and the updated fund
returned. -/
theorem updateFund_authorization (uid : Nat) (input : UpdateFundInput)
    (db : Database) (user : UserRow) (fund : FundRow)
    (hu : db.users.find? (fun u => u.id == uid) = some user)
    (hf : db.funds.find? (fun f => f.id == input.id) = some fund)
    (hname : fundNameTaken input db fund = false) :
    (updateFundResolve (some uid) input db =
        (Except.error fundUnauthorizedError, db.funds) ↔
      isAdminOrOrgAdmin user (callerMembership db fund.organizationId uid) = false) ∧
    (isAdminOrOrgAdmin user (callerMembership db fund.organizationId uid) = true →
      updateFundResolve (some uid) input db =
        (Except.ok (applyFundUpdate input uid fund),
          db.funds.map fun f =>
            if f.id == input.id then applyFundUpdate input uid f else f)) := by
  rw [updateFundResolve_eq uid input db user fund hu hf, if_neg (by simp [hname])]
  cases hb : isAdminOrOrgAdmin user (callerMembership db fund.organizationId uid) with
  | true => simp
  | false => simp

/-- C3 witness: a regular user with no membership is rejected on a
concrete database, and the funds table is untouched. -/
theorem updateFund_authorization_witness :
    updateFundResolve (some 2) ⟨10, none, some true⟩
        ⟨[⟨2, UserRole.regular⟩], [⟨10, "General", false, 5, none⟩], []⟩ =
      (Except.error fundUnauthorizedError, [⟨10, "General", false, 5, none⟩]) :=
  ((updateFund_authorization 2 ⟨10, none, some true⟩
      ⟨[⟨2, UserRole.regular⟩], [⟨10, "General", false, 5, none⟩], []⟩
      ⟨2, UserRole.regular⟩ ⟨10, "General", false, 5, none⟩
      (by decide) (by decide) (by decide)).1).mpr (by decide)

/-! ## C8: partial-update semantics -/

/-- C8: every successful updateFund call changed only the supplied input
fields of the first fund bearing the target id — an absent name or
tax-deductible flag keeps its previous value — always set `updaterId` to
the caller, left id and organization untouched, and left every other fund
row of the table unchanged. -/
theorem updateFund_updates_only_supplied_fields (uid : Nat)
    (input : UpdateFundInput) (db : Database) (f' : FundRow)
    (funds' : List FundRow)
    (h : updateFundResolve (some uid) input db = (Except.ok f', funds')) :
    ∃ old, db.funds.find? (fun g => g.id == input.id) = some old ∧
      f'.name = input.name.getD old.name ∧
      f'.isTaxDeductible = input.isTaxDeductible.getD old.isTaxDeductible ∧
      f'.updaterId = some uid ∧
      f'.id = old.id ∧ f'.organizationId = old.organizationId ∧
      funds' = (db.funds.map fun g =>
        if g.id == input.id then applyFundUpdate input uid g else g) ∧
      ∀ g ∈ db.funds, (g.id == input.id) = false → g ∈ funds' := by
  rcases hu : db.users.find? (fun u => u.id == uid) with _ | user
  · simp only [updateFundResolve, hu] at h
    simp at h
  rcases hf : db.funds.find? (fun f => f.id == input.id) with _ | fund
  · simp only [updateFundResolve, hu, hf] at h
    simp at h
  rw [updateFundResolve_eq uid input db user fund hu hf] at h
  rcases hn : fundNameTaken input db fund with _ | _
  · rw [hn, if_neg (by simp)] at h
    rcases hb : isAdminOrOrgAdmin user
        (callerMembership db fund.organizationId uid) with _ | _
    · rw [hb, if_neg (by simp)] at h
      simp at h
    · rw [hb, if_pos rfl] at h
      rw [Prod.mk.injEq] at h
      have h1 : f' = applyFundUpdate input uid fund := by
        have := h.1
        simp only [Except.ok.injEq] at this
        exact this.symm
      have h2 : funds' = (db.funds.map fun g =>
          if g.id == input.id then applyFundUpdate input uid g else g) := h.2.symm
      refine ⟨fund, hf, ?_, ?_, ?_, ?_, ?_, h2, ?_⟩
      · rw [h1]; rfl
      · rw [h1]; rfl
      · rw [h1]; rfl
      · rw [h1]; rfl
      · rw [h1]; rfl
      · intro g hg hgid
        rw [h2]
        exact List.mem_map.mpr ⟨g, hg, by simp [hgid]⟩
  · rw [hn, if_pos rfl] at h
    simp at h

/-- C8 witness: updating only the tax-deductible flag leaves the name
unchanged and records the updater. -/
theorem updateFund_updates_only_supplied_fields_witness :
    ∃ old, ([⟨10, "General", false, 5, none⟩] : List FundRow).find?
        (fun g => g.id == (10 : Nat)) = some old ∧
      ("General" : String) = (none : Option String).getD old.name ∧
      (true : Bool) = (some true : Option Bool).getD old.isTaxDeductible ∧
      (some 1 : Option Nat) = some 1 ∧
      (10 : Nat) = old.id ∧ (5 : Nat) = old.organizationId ∧
      ([⟨10, "General", true, 5, some 1⟩] : List FundRow) =
        (([⟨10, "General", false, 5, none⟩] : List FundRow).map fun g =>
          if g.id == (10 : Nat) then applyFundUpdate ⟨10, none, some true⟩ 1 g
          else g) ∧
      ∀ g ∈ ([⟨10, "General", false, 5, none⟩] : List FundRow),
        (g.id == (10 : Nat)) = false →
          g ∈ ([⟨10, "General", true, 5, some 1⟩] : List FundRow) :=
  updateFund_updates_only_supplied_fields 1 ⟨10, none, some true⟩
    ⟨[⟨1, UserRole.administrator⟩], [⟨10, "General", false, 5, none⟩], []⟩
    ⟨10, "General", true, 5, some 1⟩ [⟨10, "General", true, 5, some 1⟩]
    (by decide)

/-! ## The codec theorems -/

theorem b64Val_b64Char : ∀ v : Nat, v < 64 → b64Val (b64Char v) = some v := by
  decide

theorem b64_roundtrip : ∀ bs : List Nat, (∀ b ∈ bs, b < 256) →
    b64Decode (b64Encode bs) = some bs
  | [] => fun _ => rfl
  | [b1] => fun h => by
      have hb1 : b1 < 256 := h b1 (by simp)
      simp [b64Encode, b64Decode,
        b64Val_b64Char (b1 / 4) (by omega),
        b64Val_b64Char (b1 % 4 * 16) (by omega)]
      omega
  | [b1, b2] => fun h => by
      have hb1 : b1 < 256 := h b1 (by simp)
      have hb2 : b2 < 256 := h b2 (by simp)
      simp [b64Encode, b64Decode,
        b64Val_b64Char (b1 / 4) (by omega),
        b64Val_b64Char (b1 % 4 * 16 + b2 / 16) (by omega),
        b64Val_b64Char (b2 % 16 * 4) (by omega)]
      omega
  | b1 :: b2 :: b3 :: rest => fun h => by
      have hb1 : b1 < 256 := h b1 (by simp)
      have hb2 : b2 < 256 := h b2 (by simp)
      have hb3 : b3 < 256 := h b3 (by simp)
      have ih := b64_roundtrip rest (fun b hb => h b (by simp [hb]))
      simp [b64Encode, b64Decode,
        b64Val_b64Char (b1 / 4) (by omega),
        b64Val_b64Char (b1 % 4 * 16 + b2 / 16) (by omega),
        b64Val_b64Char (b2 % 16 * 4 + b3 / 64) (by omega),
        b64Val_b64Char (b3 % 64) (by omega), ih]
      omega

theorem dropExact_append (p r : List Nat) : dropExact p (p ++ r) = some r := by
  induction p with
  | nil => rfl
  | cons a ps ih => simp [dropExact, ih]

theorem scanJsonString_append (a r : List Nat)
    (h : ∀ x ∈ a, x ≠ 34 ∧ x ≠ 92) :
    scanJsonString (a ++ 34 :: r) = some (a, 34 :: r) := by
  induction a with
  | nil => simp [scanJsonString]
  | cons x xs ih =>
      have hx := h x (by simp)
      simp [scanJsonString, hx.1, hx.2,
        ih (fun y hy => h y (by simp [hy]))]

theorem jsonParseCursor_stringify (a b : List Nat)
    (ha : ∀ x ∈ a, x ≠ 34 ∧ x ≠ 92) (hb : ∀ x ∈ b, x ≠ 34 ∧ x ≠ 92) :
    jsonParseCursor (jsonStringifyCursor a b) = some (a, b) := by
  have e1 : jsonStringifyCursor a b =
      jsonCursorOpen ++ (a ++ (jsonCursorMid ++ (b ++ jsonCursorClose))) := by
    simp [jsonStringifyCursor, List.append_assoc]
  have emid : jsonCursorMid ++ (b ++ jsonCursorClose) =
      34 :: ([44, 34, 99, 114, 101, 97, 116, 111, 114, 73, 100, 34, 58, 34] ++
        (b ++ jsonCursorClose)) := by
    simp [jsonCursorMid]
  have h1 : dropExact jsonCursorOpen (jsonStringifyCursor a b) =
      some (a ++ (jsonCursorMid ++ (b ++ jsonCursorClose))) := by
    rw [e1, dropExact_append]
  have h2 : scanJsonString (a ++ (jsonCursorMid ++ (b ++ jsonCursorClose))) =
      some (a, jsonCursorMid ++ (b ++ jsonCursorClose)) := by
    rw [emid, scanJsonString_append a _ ha, ← emid]
  have h3 : dropExact jsonCursorMid (jsonCursorMid ++ (b ++ jsonCursorClose)) =
      some (b ++ jsonCursorClose) := dropExact_append _ _
  have h4 : scanJsonString (b ++ jsonCursorClose) = some (b, jsonCursorClose) := by
    have e2 : b ++ jsonCursorClose = b ++ (34 :: [125]) := by
      simp [jsonCursorClose]
    rw [e2, scanJsonString_append b _ hb]
    simp [jsonCursorClose]
  have h5 : dropExact jsonCursorClose jsonCursorClose = some [] := by
    have := dropExact_append jsonCursorClose []
    simpa using this
  simp [jsonParseCursor, h1, h2, h3, h4, h5]

/-! ## C5: the cursor round-trip -/

/-- C5: for every valid (timestamp, identifier) pair of field values,
decoding (base64url-decode, JSON-parse, cursor-schema-parse) the encoding
(`JSON.stringify` composed with base64url-encode) returns the original
pair. -/
theorem cursor_roundtrip (a b : List Nat) (ha : ValidField a)
    (hb : ValidField b) :
    decodeCursor (createCursor a b) = some (a, b) := by
  have hopen : ∀ x ∈ jsonCursorOpen, x < 256 := by decide
  have hmid : ∀ x ∈ jsonCursorMid, x < 256 := by decide
  have hclose : ∀ x ∈ jsonCursorClose, x < 256 := by decide
  have hbytes : ∀ x ∈ jsonStringifyCursor a b, x < 256 := by
    intro x hx
    simp only [jsonStringifyCursor, List.mem_append] at hx
    rcases hx with (((h | h) | h) | h) | h
    exacts [hopen x h, (ha x h).1, hmid x h, (hb x h).1, hclose x h]
  unfold decodeCursor createCursor
  rw [b64_roundtrip _ hbytes]
  simpa using jsonParseCursor_stringify a b
    (fun x hx => ⟨(ha x hx).2.1, (ha x hx).2.2⟩)
    (fun x hx => ⟨(hb x hx).2.1, (hb x hx).2.2⟩)

/-- C5 witness: round-trip of the concrete pair
("2024-01-01", "abc123") as byte strings. -/
theorem cursor_roundtrip_witness :
    decodeCursor (createCursor
        [50, 48, 50, 52, 45, 48, 49, 45, 48, 49]
        [97, 98, 99, 49, 50, 51]) =
      some ([50, 48, 50, 52, 45, 48, 49, 45, 48, 49],
            [97, 98, 99, 49, 50, 51]) :=
  cursor_roundtrip _ _ (by decide) (by decide)

/-! ## C6: malformed cursors are rejected with the right attribution -/

/-- C6: for every cursor argument whose decode pipeline fails (invalid
base64url, invalid JSON, or a shape rejected by the cursor schema), the
argument transform records an issue at path `before` when inversed and
`after` when forward, with message "Not a valid cursor.", and the
resolver turns the failed parse into an `invalid_arguments` error
containing that issue. -/
theorem upVoters_invalid_cursor_rejected (s : List Nat) (isInversed : Bool)
    (limit parentId : Nat) (table : List VoteRow)
    (h : decodeCursor s = none) :
    ∃ issues,
      upVotersArgumentsTransform (some s) isInversed limit =
        Except.error issues ∧
      upVotersResolve parentId (Except.error issues) table =
        Except.error (invalidArgumentsError issues) ∧
      ({ argumentPath := [if isInversed then "before" else "after"]
         message := some "Not a valid cursor." } : Issue) ∈
        (invalidArgumentsError issues).issues := by
  refine ⟨[{ argumentPath := [if isInversed then "before" else "after"]
             message := some "Not a valid cursor." }], ?_, rfl, by simp [invalidArgumentsError]⟩
  simp [upVotersArgumentsTransform, h]

/-- C6 witness: the one-byte string "!" is not valid base64url and is
rejected with the issue at path `after` on a forward traversal. -/
theorem upVoters_invalid_cursor_rejected_witness :
    ∃ issues,
      upVotersArgumentsTransform (some [33]) false 5 = Except.error issues ∧
      upVotersResolve 1 (Except.error issues) [] =
        Except.error (invalidArgumentsError issues) ∧
      ({ argumentPath := [if false then "before" else "after"]
         message := some "Not a valid cursor." } : Issue) ∈
        (invalidArgumentsError issues).issues :=
  upVoters_invalid_cursor_rejected [33] false 5 1 [] (by decide)

end Talawa
